import Mathlib

/-!
Shallow embedding of the data-access and validation layer of the
Extensions Essence API (src/main.py, src/schemas.py): the identifier
codec (the bson ObjectId string form used by the `_oid` helper and by
`_doc_with_id`), pydantic-style schema validation for Product and
Order, a list model of the MongoDB product and order collections, and
the FastAPI route handlers for products and orders.

The store driver (`database.py`: `db`, `create_document`,
`get_documents`) is not part of the sources; those operations are
modelled from the spec, as noted on their definitions.
-/

set_option autoImplicit false

deriving instance DecidableEq for Except

namespace ExtensionsEssence

/-! ### Identifier codec

`_oid` in src/main.py delegates to `bson.ObjectId(id_str)`, which for a
string checks `len(id_str) == 24` and then runs `bytes.fromhex`:
pairs of hexadecimal digits (either case), with ASCII whitespace
ignored between pairs, and with no check that the result is 12 bytes —
so a length-24 string of pair-aligned hex and whitespace parses to a
possibly shorter byte value. `_doc_with_id` renders a native identifier
with `str`, i.e. `bytes.hex()`, the lowercase hex characters. We
represent byte values by their hex nibbles; a store-generated
identifier is a genuine 12-byte value, i.e. 24 nibbles. -/

/-- Numeric value of a hexadecimal character (character codes 48-57 for
the decimal digits, 97-102 lowercase, 65-70 uppercase); 16 marks a
non-hexadecimal character. -/
def hexCharVal (c : Char) : Nat :=
  if '0' ≤ c && c ≤ '9' then c.toNat - 48
  else if 'a' ≤ c && c ≤ 'f' then c.toNat - 87
  else if 'A' ≤ c && c ≤ 'F' then c.toNat - 55
  else 16

/-- Parse one hexadecimal character into its nibble value, as accepted
by the bson ObjectId constructor (`bytes.fromhex`): both lowercase and
uppercase hexadecimal characters parse. -/
def hexToNibble (c : Char) : Option (Fin 16) :=
  if h : hexCharVal c < 16 then some ⟨hexCharVal c, h⟩ else none

/-- Render a nibble as a lowercase hexadecimal character, as `str` on a
bson ObjectId does (`bytes.hex()` renders lowercase). -/
def nibbleToHexChar (n : Fin 16) : Char :=
  if n.val < 10 then Char.ofNat (48 + n.val) else Char.ofNat (87 + n.val)

/-- Hexadecimal character, either case (the characters the ObjectId
parse accepts). -/
def isHexChar (c : Char) : Bool :=
  (hexToNibble c).isSome

/-- Lowercase hexadecimal character (the characters the ObjectId
rendering produces). -/
def isLowerHexChar (c : Char) : Bool :=
  c == '0' || c == '1' || c == '2' || c == '3' || c == '4' || c == '5' ||
  c == '6' || c == '7' || c == '8' || c == '9' || c == 'a' || c == 'b' ||
  c == 'c' || c == 'd' || c == 'e' || c == 'f'

/-- The store-generated native identifier: a genuine 12-byte value,
represented by its 24 hex nibbles. mongodb assigns such identifiers on
insert; a client-supplied string may parse to a shorter byte value (see
`oid_decode`). -/
abbrev ObjectId := { l : List (Fin 16) // l.length = 24 }

/-- ASCII whitespace, which `bytes.fromhex` ignores between byte
pairs (CPython: space, tab, newline, vertical tab, form feed, carriage
return). -/
def isAsciiWhitespace (c : Char) : Bool :=
  c == ' ' || c == '\t' || c == '\n' || c == '\x0B' || c == '\x0C' || c == '\r'

/-- `bytes.fromhex` on a character list, as nibbles: ASCII whitespace
is skipped between byte pairs, each byte is two adjacent hexadecimal
digits, and anything else fails. The result can be any number of
bytes. -/
def fromHexList : List Char → Option (List (Fin 16))
  | [] => some []
  | c :: rest =>
    if isAsciiWhitespace c then fromHexList rest
    else
      match rest with
      | [] => none
      | c2 :: rest2 =>
        match hexToNibble c, hexToNibble c2 with
        | some n1, some n2 => (fromHexList rest2).map (fun ns => n1 :: n2 :: ns)
        | _, _ => none

/-- The parse performed by `_oid` (src/main.py line 29) via
`bson.ObjectId`: the string must be exactly 24 characters long and is
then decoded with `bytes.fromhex`. The byte count of the result is not
checked, so pair-aligned whitespace yields a value of fewer than 12
bytes which still reaches the store. -/
def oid_decode (s : String) : Option (List (Fin 16)) :=
  if s.length = 24 then fromHexList s.toList else none

/-- The string rendering applied by `_doc_with_id` (src/main.py line
37): `str` on the native identifier, i.e. `bytes.hex()`, lowercase. -/
def oid_encode (l : List (Fin 16)) : String :=
  String.mk (l.map nibbleToHexChar)

theorem hexToNibble_nibbleToHexChar :
    ∀ n : Fin 16, hexToNibble (nibbleToHexChar n) = some n := by
  decide

theorem lowerHexChar_roundtrip (c : Char) (h : isLowerHexChar c = true) :
    ∃ n : Fin 16, hexToNibble c = some n ∧ nibbleToHexChar n = c := by
  simp only [isLowerHexChar, Bool.or_eq_true, beq_iff_eq] at h
  rcases h with ((((((((((((((h|h)|h)|h)|h)|h)|h)|h)|h)|h)|h)|h)|h)|h)|h)|h
  all_goals subst h
  all_goals exact ⟨_, rfl, rfl⟩

theorem nibbleToHexChar_not_ws :
    ∀ n : Fin 16, isAsciiWhitespace (nibbleToHexChar n) = false := by
  decide

theorem ws_not_hex : ∀ c : Char, isAsciiWhitespace c = true →
    hexToNibble c = none := by
  intro c h
  simp only [isAsciiWhitespace, Bool.or_eq_true, beq_iff_eq] at h
  rcases h with ((((h|h)|h)|h)|h)|h <;> subst h <;> decide

theorem not_ws_of_hexSome {c : Char} {n : Fin 16}
    (h : hexToNibble c = some n) : isAsciiWhitespace c = false := by
  cases hw : isAsciiWhitespace c
  · rfl
  · rw [ws_not_hex c hw] at h
    cases h

theorem fromHexList_map : ∀ (ns : List (Fin 16)), ns.length % 2 = 0 →
    fromHexList (ns.map nibbleToHexChar) = some ns
  | [], _ => rfl
  | [n], h => by simp at h
  | n1 :: n2 :: rest, h => by
    have ih := fromHexList_map rest (by simp [List.length_cons] at h; omega)
    simp [List.map_cons, fromHexList, nibbleToHexChar_not_ws,
      hexToNibble_nibbleToHexChar, ih]

theorem fromHexList_lower : ∀ (l : List Char),
    (∀ c ∈ l, isLowerHexChar c = true) → l.length % 2 = 0 →
    ∃ ns : List (Fin 16), fromHexList l = some ns ∧ ns.map nibbleToHexChar = l
  | [], _, _ => ⟨[], rfl, rfl⟩
  | [c], _, hlen => by simp at hlen
  | c1 :: c2 :: rest, h, hlen => by
    obtain ⟨n1, hn1, hc1⟩ := lowerHexChar_roundtrip c1 (h c1 (by simp))
    obtain ⟨n2, hn2, hc2⟩ := lowerHexChar_roundtrip c2 (h c2 (by simp))
    have hnw : isAsciiWhitespace c1 = false := not_ws_of_hexSome hn1
    obtain ⟨ns, hns, hmap⟩ := fromHexList_lower rest
      (fun x hx => h x (by simp [hx]))
      (by simp [List.length_cons] at hlen; omega)
    refine ⟨n1 :: n2 :: ns, ?_, by simp [hmap, hc1, hc2]⟩
    simp [fromHexList, hnw, hn1, hn2, hns]

/-- Encoding a store-generated native identifier and decoding the
result gives back the same identifier. -/
theorem oid_decode_encode (o : ObjectId) :
    oid_decode (oid_encode o) = some (o : List (Fin 16)) := by
  have hlen : (oid_encode (o : List (Fin 16))).length = 24 := by
    simp [oid_encode, String.length, o.prop]
  unfold oid_decode
  rw [if_pos hlen]
  have hlist : (oid_encode (o : List (Fin 16))).toList =
      (o : List (Fin 16)).map nibbleToHexChar := rfl
  rw [hlist]
  exact fromHexList_map _ (by simp [o.prop])

/-! ### Record schemas (src/schemas.py)

Validated records and their wire payloads. A payload field is `none`
when the corresponding JSON field is absent; pydantic fills schema
defaults for absent fields with a default and rejects absent required
fields. Python `float` fields carry no arithmetic in this code (they
are only bound-checked and stored), so they are modelled by `Rat`. -/

/-- One error of a pydantic ValidationError: the offending field and
the violated constraint. -/
structure FieldError where
  field : String
  msg : String
deriving DecidableEq, Repr

/-- Syntactic validity of an absolute http/https URL, modelled from the
documented constraints of pydantic `HttpUrl`: scheme http or https, a
nonempty host, total length at most 2083. (URL normalisation performed
by pydantic is not modelled; the url is kept as the validated string.) -/
def isValidHttpUrl (s : String) : Bool :=
  (if s.startsWith "https://" then some (s.drop 8)
   else if s.startsWith "http://" then some (s.drop 7)
   else none).elim false
    (fun r => !(r.takeWhile (fun c => c ≠ '/')).isEmpty && s.length ≤ 2083)

/-- Syntactic validity of an email address, modelled from the
email-validator check behind pydantic `EmailStr` (simplified): exactly
one `@`, nonempty local part, a domain containing an inner dot, no
spaces. -/
def isValidEmail (s : String) : Bool :=
  let cs := s.toList
  let localPart := cs.takeWhile (fun c => c ≠ '@')
  match cs.dropWhile (fun c => c ≠ '@') with
  | '@' :: dp =>
    !localPart.isEmpty && !dp.isEmpty && !dp.contains '@' &&
    dp.contains '.' && dp.headD ' ' ≠ '.' && dp.getLastD ' ' ≠ '.' &&
    !cs.contains ' '
  | _ => false

/-- ProductImage, src/schemas.py lines 12-14. -/
structure ProductImage where
  url : String
  alt : Option String
deriving DecidableEq, Repr

/-- Product, src/schemas.py lines 16-25. -/
structure Product where
  title : String
  description : Option String
  price : Rat
  category : String
  subcategory : Option String
  images : List ProductImage
  in_stock : Bool
  featured : Bool
  tags : List String
deriving DecidableEq, Repr

/-- Wire payload for a ProductImage; `url` is required with no default,
so a payload entry always carries one. -/
structure ProductImagePayload where
  url : String
  alt : Option String
deriving DecidableEq, Repr

/-- Wire payload for a Product: `none` marks an absent field. -/
structure ProductPayload where
  title : Option String
  description : Option String
  price : Option Rat
  category : Option String
  subcategory : Option String
  images : Option (List ProductImagePayload)
  in_stock : Option Bool
  featured : Option Bool
  tags : Option (List String)
deriving DecidableEq, Repr

/-- Errors of the bound and format checks of the Product schema:
`price ≥ 0` (Field ge=0, src/schemas.py line 19) and every image url a
valid absolute URL (HttpUrl, line 13). -/
def productValueErrors (p : ProductPayload) : List FieldError :=
  (match p.price with
   | some pr =>
     if pr < 0 then
       [⟨"price", "Input should be greater than or equal to 0"⟩]
     else []
   | none => []) ++
  ((p.images.getD []).filter (fun im => !isValidHttpUrl im.url)).map
    (fun _ => ⟨"images", "Input is not a valid URL"⟩)

/-- Errors for absent required fields of the Product schema (`title`,
`price`, `category` have no default). -/
def productMissingErrors (p : ProductPayload) : List FieldError :=
  (match p.title with
   | none => [⟨"title", "Field required"⟩]
   | some _ => []) ++
  (match p.price with
   | none => [⟨"price", "Field required"⟩]
   | some _ => []) ++
  (match p.category with
   | none => [⟨"category", "Field required"⟩]
   | some _ => [])

/-- Validation of a Product payload against the Product schema
(src/schemas.py lines 16-25): required fields must be present, bounds
and URL formats must hold, absent optional fields take the schema
defaults (`in_stock` true, `featured` false, `images` and `tags`
empty). -/
def validateProduct (p : ProductPayload) : Except (List FieldError) Product :=
  match p.title, p.price, p.category with
  | some t, some pr, some cat =>
    if (productValueErrors p).isEmpty then
      .ok { title := t
            description := p.description
            price := pr
            category := cat
            subcategory := p.subcategory
            images := (p.images.getD []).map (fun im => ⟨im.url, im.alt⟩)
            in_stock := p.in_stock.getD true
            featured := p.featured.getD false
            tags := p.tags.getD [] }
    else .error (productValueErrors p)
  | _, _, _ => .error (productMissingErrors p ++ productValueErrors p)

/-- CartItem, src/schemas.py lines 27-29. -/
structure CartItem where
  product_id : String
  quantity : Int
deriving DecidableEq, Repr

/-- OrderCustomer, src/schemas.py lines 31-34. -/
structure OrderCustomer where
  name : String
  email : String
  phone : String
deriving DecidableEq, Repr

/-- OrderAddress, src/schemas.py lines 36-42. -/
structure OrderAddress where
  line1 : String
  line2 : Option String
  city : String
  state : Option String
  postal_code : Option String
  country : String
deriving DecidableEq, Repr

/-- Order, src/schemas.py lines 44-54. `created_at` is an optional
timestamp; its parsed value is abstracted to a number, since nothing in
this code inspects it. -/
structure Order where
  items : List CartItem
  amount : Rat
  currency : String
  payment_provider : String
  payment_id : Option String
  status : String
  customer : OrderCustomer
  address : OrderAddress
  delivery_option : String
  created_at : Option Nat
deriving DecidableEq, Repr

/-- Wire payload for a CartItem. -/
structure CartItemPayload where
  product_id : Option String
  quantity : Option Int
deriving DecidableEq, Repr

/-- Wire payload for an OrderCustomer. -/
structure OrderCustomerPayload where
  name : Option String
  email : Option String
  phone : Option String
deriving DecidableEq, Repr

/-- Wire payload for an OrderAddress. -/
structure OrderAddressPayload where
  line1 : Option String
  line2 : Option String
  city : Option String
  state : Option String
  postal_code : Option String
  country : Option String
deriving DecidableEq, Repr

/-- Wire payload for an Order. -/
structure OrderPayload where
  items : Option (List CartItemPayload)
  amount : Option Rat
  currency : Option String
  payment_provider : Option String
  payment_id : Option String
  status : Option String
  customer : Option OrderCustomerPayload
  address : Option OrderAddressPayload
  delivery_option : Option String
  created_at : Option Nat
deriving DecidableEq, Repr

/-- Validation of a list of CartItem payloads: `product_id` required,
`quantity` defaults to 1 and must be at least 1 (src/schemas.py lines
27-29). Error aggregation across entries is simplified to the first
failing entry. -/
def validateCartItems : List CartItemPayload → Except (List FieldError) (List CartItem)
  | [] => .ok []
  | ci :: rest =>
    match ci.product_id with
    | none => .error [⟨"items", "product_id: Field required"⟩]
    | some pid =>
      if ci.quantity.getD 1 < 1 then
        .error [⟨"items", "quantity: Input should be greater than or equal to 1"⟩]
      else
        match validateCartItems rest with
        | .error es => .error es
        | .ok tl => .ok (⟨pid, ci.quantity.getD 1⟩ :: tl)

/-- Validation of an Order payload against the Order schema
(src/schemas.py lines 44-54): `items`, `amount`, `payment_provider`,
`customer` and `address` are required; `amount ≥ 0`; the customer email
must be syntactically valid; `currency`, `status`, `country` and
`delivery_option` default. Note that no check constrains `items` to be
nonempty, nor `status` or `payment_provider` to the documented
enumerations. Error aggregation is simplified to the first failure. -/
def validateOrder (p : OrderPayload) : Except (List FieldError) Order :=
  match p.items, p.amount, p.payment_provider, p.customer, p.address with
  | some its, some amt, some pp, some cust, some addr =>
    match validateCartItems its, cust.name, cust.email, cust.phone,
          addr.line1, addr.city with
    | .ok items, some nm, some em, some ph, some l1, some city =>
      if amt < 0 then
        .error [⟨"amount", "Input should be greater than or equal to 0"⟩]
      else if !isValidEmail em then
        .error [⟨"customer", "email: value is not a valid email address"⟩]
      else
        .ok { items := items
              amount := amt
              currency := p.currency.getD "NGN"
              payment_provider := pp
              payment_id := p.payment_id
              status := p.status.getD "pending"
              customer := ⟨nm, em, ph⟩
              address := ⟨l1, addr.line2, city, addr.state,
                          addr.postal_code, addr.country.getD "NG"⟩
              delivery_option := p.delivery_option.getD "standard"
              created_at := p.created_at }
    | .error es, _, _, _, _, _ => .error es
    | _, _, _, _, _, _ => .error [⟨"customer/address", "Field required"⟩]
  | _, _, _, _, _ => .error [⟨"order", "Field required"⟩]

/-! ### Document store model

The product and order collections are modelled as lists of documents in
insertion order; a document is the native `_id` plus the schema fields
(every document written by this API carries exactly the schema fields,
since both insert and update write a full `model_dump`). The pymongo
collection operations used by src/main.py (`find_one`, `update_one`
with `$set`, `delete_one`) act on the first document whose `_id`
matches. -/

/-- A document of the product collection: native `_id` and fields. -/
structure ProductDoc where
  oid : ObjectId
  data : Product
deriving DecidableEq

/-- The product collection, in insertion order. -/
abbrev ProductStore := List ProductDoc

/-- A document of the order collection. -/
structure OrderDoc where
  oid : ObjectId
  data : Order
deriving DecidableEq

/-- The order collection, in insertion order. -/
abbrev OrderStore := List OrderDoc

/-- pymongo `find_one({"_id": oid})`: the first document whose
identifier has the same byte value as the queried one, or absence. The
query value may have fewer than 12 bytes (see `oid_decode`) and then
matches no store-generated identifier. -/
def find_one : ProductStore → List (Fin 16) → Option ProductDoc
  | [], _ => none
  | d :: rest, q => if d.oid.val = q then some d else find_one rest q

/-- pymongo `update_one({"_id": oid}, {"$set": data})` where `data` is
a full `model_dump` of the schema: the first matching document has all
its schema fields overwritten, and the matched count (0 or 1) is
returned. -/
def update_one_set : ProductStore → List (Fin 16) → Product → Nat × ProductStore
  | [], _, _ => (0, [])
  | d :: rest, q, p =>
    if d.oid.val = q then (1, { d with data := p } :: rest)
    else
      let res := update_one_set rest q p
      (res.1, d :: res.2)

/-- pymongo `delete_one({"_id": oid})`: removes the first matching
document and returns the deleted count (0 or 1). -/
def delete_one : ProductStore → List (Fin 16) → Nat × ProductStore
  | [], _ => (0, [])
  | d :: rest, q =>
    if d.oid.val = q then (1, rest)
    else
      let res := delete_one rest q
      (res.1, d :: res.2)

/-- Modelled from the spec: `database.create_document` (database.py is
not among the sources) — §4.3 insert persists exactly one new document
in the named collection, the store assigns a fresh identifier, and the
handler receives the newly assigned identifier in string form.
Specialised to the product collection; the fresh identifier is passed
as a parameter. -/
def create_document_product (st : ProductStore) (newId : ObjectId)
    (product : Product) : String × ProductStore :=
  (oid_encode newId.val, st ++ [⟨newId, product⟩])

/-- Modelled from the spec: `database.create_document`, specialised to
the order collection (see `create_document_product`). -/
def create_document_order (st : OrderStore) (newId : ObjectId)
    (order : Order) : String × OrderStore :=
  (oid_encode newId.val, st ++ [⟨newId, order⟩])

/-- The query dictionary built by `list_products` (src/main.py lines
88-92): a key is present only when the handler put it there. -/
structure ProductQuery where
  category : Option String
  featured : Option Bool
deriving DecidableEq, Repr

/-- A document matches a query when every present key equals the
document's field. -/
def productMatches (q : ProductQuery) (d : ProductDoc) : Bool :=
  (match q.category with
   | none => true
   | some c => d.data.category == c) &&
  (match q.featured with
   | none => true
   | some b => d.data.featured == b)

/-- Modelled from the spec: `database.get_documents` (database.py is
not among the sources) — §4.3 findMany returns the documents matching
all filter key/value equalities, in insertion order (no limit is passed
for products). Specialised to the product collection. -/
def get_documents_product (st : ProductStore) (q : ProductQuery) :
    List ProductDoc :=
  st.filter (productMatches q)

/-! ### Resource handlers (src/main.py)

Each route is a function of the collection state; FastAPI validates the
request body against the schema before the handler body runs, so the
routes with a body are modelled as validation followed by the handler.
A raised HTTPException is an `error` result; a mutating route also
returns the collection state after the store calls it performed. -/

/-- An error response: `HTTPException(status, detail)` raised by a
handler, or the 422 validation error FastAPI produces for a body that
fails schema validation. -/
inductive ApiError where
  | httpError (status : Nat) (detail : String)
  | validationError (errors : List FieldError)
deriving DecidableEq, Repr

/-- HTTP status code of an error response. -/
def ApiError.statusCode : ApiError → Nat
  | .httpError s _ => s
  | .validationError _ => 422

/-- `_oid` (src/main.py lines 27-31): parse the path identifier with
`ObjectId`, turning any parse failure into a 400 "Invalid id". A
successful parse may carry fewer than 12 bytes. -/
def _oid (id_str : String) : Except ApiError (List (Fin 16)) :=
  match oid_decode id_str with
  | some q => .ok q
  | none => .error (.httpError 400 "Invalid id")

/-- A product response body: the document's fields with the native
`_id` replaced by its string form under `id` (`_doc_with_id`,
src/main.py lines 34-38). -/
structure ProductOut where
  id : String
  data : Product
deriving DecidableEq, Repr

/-- `_doc_with_id` on a product document. -/
def _doc_with_id (d : ProductDoc) : ProductOut :=
  ⟨oid_encode d.oid.val, d.data⟩

/-- Response of a create route: `{"id": new_id}`. -/
structure CreateResponse where
  id : String
deriving DecidableEq, Repr

/-- Response of the update route: `{"id": product_id, "updated": True}`. -/
structure UpdateResponse where
  id : String
  updated : Bool
deriving DecidableEq, Repr

/-- Response of the delete route: `{"deleted": True}`. -/
structure DeleteResponse where
  deleted : Bool
deriving DecidableEq, Repr

/-- `GET /products` (src/main.py lines 86-94): build the query from the
nonempty category (Python truthiness: an empty string adds no key) and
the non-None featured flag, fetch, and shape each document. -/
def list_products (st : ProductStore) (category : Option String)
    (featured : Option Bool) : List ProductOut :=
  let q : ProductQuery :=
    { category :=
        match category with
        | some c => if c.isEmpty then none else some c
        | none => none
      featured := featured }
  (get_documents_product st q).map _doc_with_id

/-- `GET /products/{product_id}` (src/main.py lines 97-102). -/
def get_product (st : ProductStore) (product_id : String) :
    Except ApiError ProductOut :=
  match _oid product_id with
  | .error e => .error e
  | .ok o =>
    match find_one st o with
    | none => .error (.httpError 404 "Product not found")
    | some d => .ok (_doc_with_id d)

/-- `POST /products` handler body (src/main.py lines 105-108), with the
validated body. -/
def create_product (st : ProductStore) (newId : ObjectId)
    (product : Product) : Except ApiError CreateResponse × ProductStore :=
  let res := create_document_product st newId product
  (.ok ⟨res.1⟩, res.2)

/-- `POST /products` route: body validation, then the handler. -/
def post_products (st : ProductStore) (newId : ObjectId)
    (payload : ProductPayload) : Except ApiError CreateResponse × ProductStore :=
  match validateProduct payload with
  | .error es => (.error (.validationError es), st)
  | .ok product => create_product st newId product

/-- `PUT /products/{product_id}` handler body (src/main.py lines
111-117), with the validated body: decode the identifier, `$set` the
full `model_dump`, 404 on zero matches. -/
def update_product (st : ProductStore) (product_id : String)
    (product : Product) : Except ApiError UpdateResponse × ProductStore :=
  match _oid product_id with
  | .error e => (.error e, st)
  | .ok o =>
    let res := update_one_set st o product
    if res.1 = 0 then (.error (.httpError 404 "Product not found"), res.2)
    else (.ok ⟨product_id, true⟩, res.2)

/-- `PUT /products/{product_id}` route: body validation, then the
handler. -/
def put_products (st : ProductStore) (product_id : String)
    (payload : ProductPayload) : Except ApiError UpdateResponse × ProductStore :=
  match validateProduct payload with
  | .error es => (.error (.validationError es), st)
  | .ok product => update_product st product_id product

/-- `DELETE /products/{product_id}` (src/main.py lines 120-125). -/
def delete_product (st : ProductStore) (product_id : String) :
    Except ApiError DeleteResponse × ProductStore :=
  match _oid product_id with
  | .error e => (.error e, st)
  | .ok o =>
    let res := delete_one st o
    if res.1 = 0 then (.error (.httpError 404 "Product not found"), res.2)
    else (.ok ⟨true⟩, res.2)

/-- `POST /orders` handler body (src/main.py lines 185-188), with the
validated body. -/
def create_order (st : OrderStore) (newId : ObjectId) (order : Order) :
    Except ApiError CreateResponse × OrderStore :=
  let res := create_document_order st newId order
  (.ok ⟨res.1⟩, res.2)

/-- `POST /orders` route: body validation, then the handler. -/
def post_orders (st : OrderStore) (newId : ObjectId)
    (payload : OrderPayload) : Except ApiError CreateResponse × OrderStore :=
  match validateOrder payload with
  | .error es => (.error (.validationError es), st)
  | .ok order => create_order st newId order

/-! ### Concrete sample values

Closed inputs used to instantiate the theorems below on concrete
data. -/

/-- A concrete native identifier: 24 zero nibbles. -/
def sampleOid : ObjectId := ⟨List.replicate 24 0, by simp⟩

/-- A second concrete native identifier, distinct from `sampleOid`. -/
def sampleOid2 : ObjectId := ⟨List.replicate 24 1, by simp⟩

/-- A concrete stored product of category "crochet". -/
def sampleProduct : Product :=
  { title := "Crochet Locs", description := none, price := 30,
    category := "crochet", subcategory := none, images := [],
    in_stock := true, featured := false, tags := [] }

/-- A one-document concrete product collection. -/
def sampleStore : ProductStore := [⟨sampleOid, sampleProduct⟩]

/-- The response body for `sampleProduct`. -/
def sampleOut : ProductOut := _doc_with_id ⟨sampleOid, sampleProduct⟩

/-- The spec's scenario payload: only `title`, `price` and `category`
supplied. -/
def validProductPayload : ProductPayload :=
  { title := some "Box Braids", description := none, price := some 25,
    category := some "braids", subcategory := none, images := none,
    in_stock := none, featured := none, tags := none }

/-- The record the scenario payload validates to: schema defaults
filled in. -/
def boxBraidsProduct : Product :=
  { title := "Box Braids", description := none, price := 25,
    category := "braids", subcategory := none, images := [],
    in_stock := true, featured := false, tags := [] }

/-- An empty product payload (every field absent). -/
def emptyProductPayload : ProductPayload :=
  ⟨none, none, none, none, none, none, none, none, none⟩

/-- The scenario payload with a negative price. -/
def negPricePayload : ProductPayload :=
  { validProductPayload with price := some (-1) }

/-- An order payload with an empty items list and arbitrary
`payment_provider` and `status` strings; the other required fields are
supplied and the optional ones absent. -/
def orderPayloadOf (pp stat nm em ph l1 city : String) (amt : Rat) :
    OrderPayload :=
  { items := some [], amount := some amt, currency := none,
    payment_provider := some pp, payment_id := none, status := some stat,
    customer := some ⟨some nm, some em, some ph⟩,
    address := some ⟨some l1, none, some city, none, none, none⟩,
    delivery_option := none, created_at := none }

/-- The order `orderPayloadOf` validates to: defaults filled in. -/
def orderOf (pp stat nm em ph l1 city : String) (amt : Rat) : Order :=
  { items := [], amount := amt, currency := "NGN",
    payment_provider := pp, payment_id := none, status := stat,
    customer := ⟨nm, em, ph⟩,
    address := ⟨l1, none, city, none, none, "NG"⟩,
    delivery_option := "standard", created_at := none }

/-! ### Store lemmas -/

theorem find_one_eq_none {st : ProductStore} {o : ObjectId}
    (h : ∀ d ∈ st, d.oid ≠ o) : find_one st o.val = none := by
  induction st with
  | nil => rfl
  | cons d rest ih =>
    simp only [find_one]
    rw [if_neg (fun heq => h d (by simp) (Subtype.ext heq))]
    exact ih (fun x hx => h x (by simp [hx]))

theorem find_one_append {st : ProductStore} {o : ObjectId} (p : Product)
    (h : ∀ d ∈ st, d.oid ≠ o) :
    find_one (st ++ [⟨o, p⟩]) o.val = some ⟨o, p⟩ := by
  induction st with
  | nil => simp [find_one]
  | cons d rest ih =>
    simp only [List.cons_append, find_one]
    rw [if_neg (fun heq => h d (by simp) (Subtype.ext heq))]
    exact ih (fun x hx => h x (by simp [hx]))

theorem update_one_set_eq_zero {st : ProductStore} {o : ObjectId}
    (p : Product) (h : ∀ d ∈ st, d.oid ≠ o) :
    update_one_set st o.val p = (0, st) := by
  induction st with
  | nil => rfl
  | cons d rest ih =>
    simp only [update_one_set]
    rw [if_neg (fun heq => h d (by simp) (Subtype.ext heq))]
    rw [ih (fun x hx => h x (by simp [hx]))]

theorem update_one_set_found (pre post : ProductStore) (o : ObjectId)
    (old p : Product) (h : ∀ d ∈ pre, d.oid ≠ o) :
    update_one_set (pre ++ ⟨o, old⟩ :: post) o.val p =
      (1, pre ++ ⟨o, p⟩ :: post) := by
  induction pre with
  | nil => simp [update_one_set]
  | cons d rest ih =>
    simp only [List.cons_append, update_one_set]
    rw [if_neg (fun heq => h d (by simp) (Subtype.ext heq))]
    simp only [List.append_eq]
    rw [ih (fun x hx => h x (by simp [hx]))]

theorem delete_one_eq_zero {st : ProductStore} {o : ObjectId}
    (h : ∀ d ∈ st, d.oid ≠ o) :
    delete_one st o.val = (0, st) := by
  induction st with
  | nil => rfl
  | cons d rest ih =>
    simp only [delete_one]
    rw [if_neg (fun heq => h d (by simp) (Subtype.ext heq))]
    rw [ih (fun x hx => h x (by simp [hx]))]

theorem delete_one_found (pre post : ProductStore) (o : ObjectId)
    (p : Product) (h : ∀ d ∈ pre, d.oid ≠ o) :
    delete_one (pre ++ ⟨o, p⟩ :: post) o.val = (1, pre ++ post) := by
  induction pre with
  | nil => simp [delete_one]
  | cons d rest ih =>
    simp only [List.cons_append, delete_one]
    rw [if_neg (fun heq => h d (by simp) (Subtype.ext heq))]
    simp only [List.append_eq]
    rw [ih (fun x hx => h x (by simp [hx]))]

/-! ### Decode and validation lemmas -/

theorem fromHexList_cons (c : Char) (rest : List Char) :
    fromHexList (c :: rest) =
      if isAsciiWhitespace c then fromHexList rest
      else
        match rest with
        | [] => none
        | c2 :: rest2 =>
          match hexToNibble c, hexToNibble c2 with
          | some n1, some n2 =>
            (fromHexList rest2).map (fun ns => n1 :: n2 :: ns)
          | _, _ => none := by
  rw [fromHexList.eq_def]

theorem fromHexList_eq_none {c : Char} (hhex : isHexChar c = false)
    (hws : isAsciiWhitespace c = false) :
    ∀ (l : List Char), c ∈ l → fromHexList l = none
  | [d], hc => by
    have hcd : c = d := by
      rcases List.mem_cons.mp hc with h | h
      · exact h
      · cases h
    by_cases hdws : isAsciiWhitespace d = true
    · rw [hcd, hdws] at hws
      cases hws
    · rw [fromHexList_cons, if_neg hdws]
  | d :: c2 :: rest2, hc => by
    by_cases hdws : isAsciiWhitespace d = true
    · have hcr : c ∈ c2 :: rest2 := by
        rcases List.mem_cons.mp hc with h | h
        · rw [h, hdws] at hws; cases hws
        · exact h
      rw [fromHexList_cons, if_pos hdws]
      exact fromHexList_eq_none hhex hws (c2 :: rest2) hcr
    · rw [fromHexList_cons, if_neg hdws]
      have hcd : c = d ∨ c = c2 ∨ c ∈ rest2 := by
        rcases List.mem_cons.mp hc with h | h
        · exact Or.inl h
        · rcases List.mem_cons.mp h with h2 | h2
          · exact Or.inr (Or.inl h2)
          · exact Or.inr (Or.inr h2)
      show (match hexToNibble d, hexToNibble c2 with
        | some n1, some n2 => (fromHexList rest2).map (fun ns => n1 :: n2 :: ns)
        | _, _ => none) = none
      cases hd : hexToNibble d with
      | none => rfl
      | some n1 =>
        cases hd2 : hexToNibble c2 with
        | none => rfl
        | some n2 =>
          rcases hcd with h | h | h
          · rw [h] at hhex
            unfold isHexChar at hhex
            rw [hd] at hhex
            simp at hhex
          · rw [h] at hhex
            unfold isHexChar at hhex
            rw [hd2] at hhex
            simp at hhex
          · show (fromHexList rest2).map (fun ns => n1 :: n2 :: ns) = none
            rw [fromHexList_eq_none hhex hws rest2 h]
            rfl

theorem oid_decode_eq_none {s : String}
    (h : s.length ≠ 24 ∨
      ∃ c ∈ s.toList, isHexChar c = false ∧ isAsciiWhitespace c = false) :
    oid_decode s = none := by
  unfold oid_decode
  rcases h with h | ⟨c, hc, hhex, hws⟩
  · rw [if_neg h]
  · by_cases hl : s.length = 24
    · rw [if_pos hl]
      exact fromHexList_eq_none hhex hws s.toList hc
    · rw [if_neg hl]

theorem validateProduct_ok_fields {payload : ProductPayload} {p : Product}
    (hv : validateProduct payload = .ok p) :
    payload.title = some p.title ∧
    payload.price = some p.price ∧
    payload.category = some p.category ∧
    p.description = payload.description ∧
    p.subcategory = payload.subcategory ∧
    p.images = (payload.images.getD []).map (fun im => ⟨im.url, im.alt⟩) ∧
    p.in_stock = payload.in_stock.getD true ∧
    p.featured = payload.featured.getD false ∧
    p.tags = payload.tags.getD [] := by
  obtain ⟨t, de, pr, cat, sc, im, ins, fe, tg⟩ := payload
  cases t with
  | none => simp [validateProduct] at hv
  | some t0 =>
  cases pr with
  | none => simp [validateProduct] at hv
  | some pr0 =>
  cases cat with
  | none => simp [validateProduct] at hv
  | some cat0 =>
  simp only [validateProduct] at hv
  split at hv
  · injection hv with h
    subst h
    exact ⟨rfl, rfl, rfl, rfl, rfl, rfl, rfl, rfl, rfl⟩
  · cases hv

theorem validateProduct_error_of_valueError {payload : ProductPayload}
    {e : FieldError} (he : e ∈ productValueErrors payload) :
    ∃ es, validateProduct payload = .error es ∧ e ∈ es := by
  obtain ⟨t, de, pr, cat, sc, im, ins, fe, tg⟩ := payload
  cases t with
  | none => exact ⟨_, rfl, List.mem_append_right _ he⟩
  | some t0 =>
  cases pr with
  | none => exact ⟨_, rfl, List.mem_append_right _ he⟩
  | some pr0 =>
  cases cat with
  | none => exact ⟨_, rfl, List.mem_append_right _ he⟩
  | some cat0 =>
  refine ⟨productValueErrors ⟨some t0, de, some pr0, some cat0, sc, im, ins, fe, tg⟩, ?_, he⟩
  have hne : (productValueErrors
      ⟨some t0, de, some pr0, some cat0, sc, im, ins, fe, tg⟩).isEmpty = false := by
    rcases hcase : productValueErrors
        ⟨some t0, de, some pr0, some cat0, sc, im, ins, fe, tg⟩ with _ | ⟨a, l⟩
    · rw [hcase] at he; cases he
    · rfl
  simp [validateProduct, hne]

theorem validateProduct_error_of_missing_title {payload : ProductPayload}
    (h : payload.title = none) :
    ∃ es, validateProduct payload = .error es ∧
      (⟨"title", "Field required"⟩ : FieldError) ∈ es := by
  obtain ⟨t, de, pr, cat, sc, im, ins, fe, tg⟩ := payload
  cases t with
  | some t0 => cases h
  | none =>
    refine ⟨_, rfl, List.mem_append_left _ ?_⟩
    simp [productMissingErrors]

theorem priceErr_mem_valueErrors {payload : ProductPayload} {pr : Rat}
    (hpr : payload.price = some pr) (hneg : pr < 0) :
    (⟨"price", "Input should be greater than or equal to 0"⟩ : FieldError) ∈
      productValueErrors payload := by
  unfold productValueErrors
  rw [hpr]
  refine List.mem_append_left _ ?_
  simp [hneg]

theorem urlErr_mem_valueErrors {payload : ProductPayload}
    {imgs : List ProductImagePayload} {im : ProductImagePayload}
    (h1 : payload.images = some imgs) (h2 : im ∈ imgs)
    (h3 : isValidHttpUrl im.url = false) :
    (⟨"images", "Input is not a valid URL"⟩ : FieldError) ∈
      productValueErrors payload := by
  unfold productValueErrors
  refine List.mem_append_right _ ?_
  rw [h1]
  refine List.mem_map.mpr ⟨im, ?_, rfl⟩
  rw [List.mem_filter]
  exact ⟨h2, by simp [h3]⟩

/-! ### Claim theorems -/

theorem list_products_eq (st : ProductStore) (c : String)
    (hcne : c.isEmpty = false) (fopt : Option Bool) :
    list_products st (some c) fopt =
      (get_documents_product st ⟨some c, fopt⟩).map _doc_with_id := by
  simp [list_products, hcne]

/-- C1, counterexample: the claim "encode(decode(s)) == s for every
valid 24-hex-character identifier string" fails at the 24-character
uppercase-hex string of all As, which the decode accepts but the encode
renders in lowercase. -/
theorem oid_roundtrip_fails_on_uppercase :
    ("AAAAAAAAAAAAAAAAAAAAAAAA" : String).length = 24 ∧
    (∀ c ∈ ("AAAAAAAAAAAAAAAAAAAAAAAA" : String).toList, isHexChar c = true) ∧
    (oid_decode "AAAAAAAAAAAAAAAAAAAAAAAA").isSome = true ∧
    (oid_decode "AAAAAAAAAAAAAAAAAAAAAAAA").map oid_encode ≠
      some "AAAAAAAAAAAAAAAAAAAAAAAA" :=
  ⟨by decide, by decide, by decide, by decide⟩

/-- C1 (amended): encoding the result of decoding s yields s back for
every 24-character lowercase-hex identifier string; for uppercase input
the decode succeeds but the rendering is the lowercase form. -/
theorem oid_encode_decode_roundtrip_lowercase (s : String)
    (h1 : s.length = 24) (h2 : ∀ c ∈ s.toList, isLowerHexChar c = true) :
    (oid_decode s).map oid_encode = some s := by
  have hlen2 : s.toList.length % 2 = 0 := by
    rw [show s.toList.length = 24 from h1]
  obtain ⟨ns, hns, hmap⟩ := fromHexList_lower s.toList h2 hlen2
  unfold oid_decode
  rw [if_pos h1, hns]
  simp only [Option.map_some']
  congr 1
  unfold oid_encode
  rw [hmap]
  cases s
  rfl

/-- Witness for the amended C1 at a concrete lowercase identifier. -/
theorem oid_encode_decode_roundtrip_lowercase_witness :
    ("0123456789abcdef01234567" : String).length = 24 ∧
    (∀ c ∈ ("0123456789abcdef01234567" : String).toList,
      isLowerHexChar c = true) ∧
    (oid_decode "0123456789abcdef01234567").map oid_encode =
      some "0123456789abcdef01234567" :=
  ⟨by decide, by decide,
    oid_encode_decode_roundtrip_lowercase "0123456789abcdef01234567"
      (by decide) (by decide)⟩

/-- C4: listing with category "crochet" returns only documents whose
category equals "crochet", and supplying both category "crochet" and a
featured flag returns exactly the documents satisfying both equalities
(AND semantics). -/
theorem list_products_category_crochet (st : ProductStore) (b : Bool) :
    (∀ out ∈ list_products st (some "crochet") none,
      out.data.category = "crochet") ∧
    list_products st (some "crochet") (some b) =
      (st.filter (fun d => d.data.category == "crochet" &&
        d.data.featured == b)).map _doc_with_id := by
  have hcro : ("crochet" : String).isEmpty = false := by decide
  constructor
  · intro out hout
    rw [list_products_eq st "crochet" hcro none] at hout
    simp only [List.mem_map] at hout
    obtain ⟨d, hd, rfl⟩ := hout
    simp only [get_documents_product] at hd
    rw [List.mem_filter] at hd
    have hm := hd.2
    simp only [productMatches, Bool.and_eq_true, beq_iff_eq] at hm
    exact hm.1
  · rw [list_products_eq st "crochet" hcro (some b)]
    rfl

/-- Witness for C4 at a concrete store holding one crochet product. -/
theorem list_products_category_crochet_witness :
    sampleOut ∈ list_products sampleStore (some "crochet") none ∧
    sampleOut.data.category = "crochet" :=
  ⟨by decide,
    (list_products_category_crochet sampleStore false).1 sampleOut (by decide)⟩

/-- C10: the two filter parameters of GET /products treat falsy values
asymmetrically — a category equal to the empty string is dropped (no
category filter; with no featured flag every document is returned),
while featured=false is a genuine equality filter. -/
theorem list_products_falsy_asymmetry (st : ProductStore) :
    list_products st (some "") none = st.map _doc_with_id ∧
    list_products st (some "") (some false) =
      (st.filter (fun d => d.data.featured == false)).map _doc_with_id := by
  constructor
  · show (get_documents_product st ⟨none, none⟩).map _doc_with_id =
      st.map _doc_with_id
    exact congrArg (List.map _doc_with_id)
      (by simp [get_documents_product, productMatches])
  · have hfun : productMatches ⟨none, some false⟩ =
        (fun d => d.data.featured == false) := by
      funext d
      simp [productMatches]
    show (st.filter (productMatches ⟨none, some false⟩)).map _doc_with_id =
      (st.filter (fun d => d.data.featured == false)).map _doc_with_id
    rw [hfun]

/-- C3, counterexample: the claim fails at the 24-character string
"aa bb cc dd ee ff 00 11 ", which contains non-hex characters (spaces)
yet is accepted by the ObjectId parse: `bytes.fromhex` ignores
pair-aligned ASCII whitespace and the byte count of the result is not
checked, so the decode yields an 8-byte value, no 400 is raised, and
the store lookup runs — GET answers with the store-miss 404, not the
decode's 400. -/
theorem malformed_id_400_fails_on_whitespace :
    ("aa bb cc dd ee ff 00 11 " : String).length = 24 ∧
    (∃ c ∈ ("aa bb cc dd ee ff 00 11 " : String).toList,
      isHexChar c = false) ∧
    _oid "aa bb cc dd ee ff 00 11 " =
      .ok [10, 10, 11, 11, 12, 12, 13, 13, 14, 14, 15, 15, 0, 0, 1, 1] ∧
    get_product [] "aa bb cc dd ee ff 00 11 " ≠
      .error (.httpError 400 "Invalid id") ∧
    get_product [] "aa bb cc dd ee ff 00 11 " =
      .error (.httpError 404 "Product not found") :=
  ⟨by decide, by decide, by decide, by decide, by decide⟩

/-- C3 (amended): for an identifier string the ObjectId parse rejects —
wrong length, or containing a character that is neither a hexadecimal
digit nor ASCII whitespace (whitespace is ignored between byte pairs
by `bytes.fromhex`, so a length-24 pair-aligned mix of hex and
whitespace is accepted and does reach the store) — GET, PUT and DELETE
on /products/{id} fail with the 400 client fault raised by the
identifier decode before any store operation, and the store is left
untouched; the PUT route yields a 400-class fault and an untouched
store for every body. -/
theorem malformed_id_rejected_before_store (st : ProductStore) (s : String)
    (payload : ProductPayload) (product : Product)
    (h : s.length ≠ 24 ∨
      ∃ c ∈ s.toList, isHexChar c = false ∧ isAsciiWhitespace c = false) :
    get_product st s = .error (.httpError 400 "Invalid id") ∧
    update_product st s product = (.error (.httpError 400 "Invalid id"), st) ∧
    delete_product st s = (.error (.httpError 400 "Invalid id"), st) ∧
    (put_products st s payload).2 = st ∧
    (∃ e, (put_products st s payload).1 = .error e ∧
      400 ≤ e.statusCode ∧ e.statusCode < 500) := by
  have hdec : oid_decode s = none := oid_decode_eq_none h
  have hoid : _oid s = .error (.httpError 400 "Invalid id") := by
    simp [_oid, hdec]
  refine ⟨?_, ?_, ?_, ?_, ?_⟩
  · simp [get_product, hoid]
  · simp [update_product, hoid]
  · simp [delete_product, hoid]
  · cases hv : validateProduct payload with
    | error es => simp [put_products, hv]
    | ok p => simp [put_products, hv, update_product, hoid]
  · cases hv : validateProduct payload with
    | error es =>
      exact ⟨.validationError es, by simp [put_products, hv],
        by simp [ApiError.statusCode], by simp [ApiError.statusCode]⟩
    | ok p =>
      exact ⟨.httpError 400 "Invalid id",
        by simp [put_products, hv, update_product, hoid],
        by decide, by decide⟩

/-- Witness for the amended C3 at the concrete malformed identifier
"zz". -/
theorem malformed_id_rejected_witness :
    (("zz" : String).length ≠ 24 ∨
      ∃ c ∈ ("zz" : String).toList,
        isHexChar c = false ∧ isAsciiWhitespace c = false) ∧
    get_product [] "zz" = .error (.httpError 400 "Invalid id") ∧
    delete_product [] "zz" = (.error (.httpError 400 "Invalid id"), []) :=
  ⟨by decide,
   (malformed_id_rejected_before_store [] "zz" emptyProductPayload
     sampleProduct (by decide)).1,
   (malformed_id_rejected_before_store [] "zz" emptyProductPayload
     sampleProduct (by decide)).2.2.1⟩

/-- C7: for a well-formed identifier matching no stored document, GET,
PUT (with a valid body) and DELETE on /products/{id} each return the
404 not-found fault, translated from the absent find result or the
zero matched/deleted count, and the store is unchanged. -/
theorem unknown_id_not_found (st : ProductStore) (o : ObjectId)
    (payload : ProductPayload) (product : Product)
    (hno : ∀ d ∈ st, d.oid ≠ o)
    (hv : validateProduct payload = .ok product) :
    get_product st (oid_encode o) =
      .error (.httpError 404 "Product not found") ∧
    put_products st (oid_encode o) payload =
      (.error (.httpError 404 "Product not found"), st) ∧
    delete_product st (oid_encode o) =
      (.error (.httpError 404 "Product not found"), st) := by
  have hoid : _oid (oid_encode o) = .ok o := by
    simp [_oid, oid_decode_encode]
  refine ⟨?_, ?_, ?_⟩
  · simp [get_product, hoid, find_one_eq_none hno]
  · simp [put_products, hv, update_product, hoid,
      update_one_set_eq_zero product hno]
  · simp [delete_product, hoid, delete_one_eq_zero hno]

/-- Witness for C7 at an empty store and a concrete identifier. -/
theorem unknown_id_not_found_witness :
    validateProduct validProductPayload = .ok boxBraidsProduct ∧
    get_product [] (oid_encode sampleOid) =
      .error (.httpError 404 "Product not found") :=
  ⟨by decide,
    (unknown_id_not_found [] sampleOid validProductPayload boxBraidsProduct
      (by decide) (by decide)).1⟩

/-- C6: deleting a stored product twice succeeds the first time
(deleted count 1) and returns the not-found fault the second time
(deleted count 0). -/
theorem delete_twice_success_then_not_found (pre post : ProductStore)
    (o : ObjectId) (p : Product)
    (hpre : ∀ d ∈ pre, d.oid ≠ o) (hpost : ∀ d ∈ post, d.oid ≠ o) :
    (delete_one (pre ++ ⟨o, p⟩ :: post) o).1 = 1 ∧
    delete_product (pre ++ ⟨o, p⟩ :: post) (oid_encode o) =
      (.ok ⟨true⟩, pre ++ post) ∧
    (delete_one (pre ++ post) o).1 = 0 ∧
    delete_product (pre ++ post) (oid_encode o) =
      (.error (.httpError 404 "Product not found"), pre ++ post) := by
  have hoid : _oid (oid_encode o) = .ok o := by
    simp [_oid, oid_decode_encode]
  have h1 := delete_one_found pre post o p hpre
  have hrest : ∀ d ∈ pre ++ post, d.oid ≠ o := by
    intro d hd
    rcases List.mem_append.mp hd with hmem | hmem
    · exact hpre d hmem
    · exact hpost d hmem
  have h0 := delete_one_eq_zero hrest
  refine ⟨by rw [h1], ?_, by rw [h0], ?_⟩
  · simp [delete_product, hoid, h1]
  · simp [delete_product, hoid, h0]

/-- Witness for C6 at a concrete one-document store. -/
theorem delete_twice_witness :
    delete_product [⟨sampleOid, sampleProduct⟩] (oid_encode sampleOid) =
      (.ok ⟨true⟩, []) ∧
    delete_product [] (oid_encode sampleOid) =
      (.error (.httpError 404 "Product not found"), []) :=
  ⟨(delete_twice_success_then_not_found [] [] sampleOid sampleProduct
      (by decide) (by decide)).2.1,
   (delete_twice_success_then_not_found [] [] sampleOid sampleProduct
      (by decide) (by decide)).2.2.2⟩

/-- C2: PUT /products/{id} with a valid payload replaces every mutable
field of the matched document with the payload's validated fields and
leaves the identifier untouched; a field absent from the update payload
comes out as its schema default, so the previously stored value is
lost (full-field replace, not partial patch). -/
theorem put_products_full_replace (pre post : ProductStore) (o : ObjectId)
    (old newp : Product) (payload : ProductPayload) (s : String)
    (hs : oid_decode s = some o)
    (hv : validateProduct payload = .ok newp)
    (hpre : ∀ d ∈ pre, d.oid ≠ o) :
    put_products (pre ++ ⟨o, old⟩ :: post) s payload =
      (.ok ⟨s, true⟩, pre ++ ⟨o, newp⟩ :: post) ∧
    (payload.description = none → newp.description = none) ∧
    (payload.subcategory = none → newp.subcategory = none) ∧
    (payload.in_stock = none → newp.in_stock = true) ∧
    (payload.featured = none → newp.featured = false) ∧
    (payload.images = none → newp.images = []) ∧
    (payload.tags = none → newp.tags = []) := by
  obtain ⟨-, -, -, hde, hsc, him, hins, hfe, htg⟩ := validateProduct_ok_fields hv
  have hoid : _oid s = .ok o := by simp [_oid, hs]
  refine ⟨?_, ?_, ?_, ?_, ?_, ?_, ?_⟩
  · simp [put_products, hv, update_product, hoid,
      update_one_set_found pre post o old newp hpre]
  · intro h; exact hde.trans h
  · intro h; exact hsc.trans h
  · intro h; rw [hins, h]; rfl
  · intro h; rw [hfe, h]; rfl
  · intro h; rw [him, h]; rfl
  · intro h; rw [htg, h]; rfl

/-- Witness for C2: a stored crochet product is wholly replaced by the
scenario payload; its old description, category and price are gone. -/
theorem put_products_full_replace_witness :
    put_products [⟨sampleOid, sampleProduct⟩] (oid_encode sampleOid)
      validProductPayload =
      (.ok ⟨oid_encode sampleOid, true⟩, [⟨sampleOid, boxBraidsProduct⟩]) ∧
    boxBraidsProduct.description = none :=
  ⟨(put_products_full_replace [] [] sampleOid sampleProduct boxBraidsProduct
      validProductPayload (oid_encode sampleOid) (oid_decode_encode sampleOid)
      (by decide) (by decide)).1,
   (put_products_full_replace [] [] sampleOid sampleProduct boxBraidsProduct
      validProductPayload (oid_encode sampleOid) (oid_decode_encode sampleOid)
      (by decide) (by decide)).2.1 rfl⟩

/-- C5: creating a product from a valid payload and then getting it by
the returned identifier yields the validated record with the added
string identifier; absent optional fields come back as the schema
defaults (in_stock true, featured false, images and tags empty). -/
theorem create_then_get_roundtrip (st : ProductStore) (newId : ObjectId)
    (payload : ProductPayload) (p : Product)
    (hv : validateProduct payload = .ok p)
    (hfresh : ∀ d ∈ st, d.oid ≠ newId) :
    post_products st newId payload =
      (.ok ⟨oid_encode newId⟩, st ++ [⟨newId, p⟩]) ∧
    get_product (st ++ [⟨newId, p⟩]) (oid_encode newId) =
      .ok ⟨oid_encode newId, p⟩ ∧
    (payload.in_stock = none → p.in_stock = true) ∧
    (payload.featured = none → p.featured = false) ∧
    (payload.images = none → p.images = []) ∧
    (payload.tags = none → p.tags = []) := by
  obtain ⟨-, -, -, -, -, him, hins, hfe, htg⟩ := validateProduct_ok_fields hv
  have hoid : _oid (oid_encode newId) = .ok newId := by
    simp [_oid, oid_decode_encode]
  refine ⟨?_, ?_, ?_, ?_, ?_, ?_⟩
  · simp [post_products, hv, create_product, create_document_product]
  · simp [get_product, hoid, find_one_append p hfresh, _doc_with_id]
  · intro h; rw [hins, h]; rfl
  · intro h; rw [hfe, h]; rfl
  · intro h; rw [him, h]; rfl
  · intro h; rw [htg, h]; rfl

/-- Witness for C5: the spec's scenario, with only title, price and
category supplied. -/
theorem create_then_get_roundtrip_witness :
    validateProduct validProductPayload = .ok boxBraidsProduct ∧
    post_products [] sampleOid2 validProductPayload =
      (.ok ⟨oid_encode sampleOid2⟩, [⟨sampleOid2, boxBraidsProduct⟩]) ∧
    get_product [⟨sampleOid2, boxBraidsProduct⟩] (oid_encode sampleOid2) =
      .ok ⟨oid_encode sampleOid2, boxBraidsProduct⟩ ∧
    boxBraidsProduct.in_stock = true ∧ boxBraidsProduct.featured = false ∧
    boxBraidsProduct.images = [] ∧ boxBraidsProduct.tags = [] := by
  obtain ⟨h1, h2, h3, h4, h5, h6⟩ := create_then_get_roundtrip [] sampleOid2
    validProductPayload boxBraidsProduct (by decide) (by decide)
  exact ⟨by decide, h1, h2, h3 rfl, h4 rfl, h5 rfl, h6 rfl⟩

/-- C8: a Product payload violating a field predicate (negative price,
missing required title, or an image whose url is not a valid absolute
URL) is rejected by validation with an error naming the offending
field, and POST /products leaves the store untouched: nothing is
persisted. -/
theorem invalid_product_rejected_not_persisted (st : ProductStore)
    (newId : ObjectId) (payload : ProductPayload) :
    (∀ pr : Rat, payload.price = some pr → pr < 0 →
      ∃ es, validateProduct payload = .error es ∧
        (⟨"price", "Input should be greater than or equal to 0"⟩ : FieldError) ∈ es ∧
        post_products st newId payload = (.error (.validationError es), st)) ∧
    (payload.title = none →
      ∃ es, validateProduct payload = .error es ∧
        (⟨"title", "Field required"⟩ : FieldError) ∈ es ∧
        post_products st newId payload = (.error (.validationError es), st)) ∧
    (∀ imgs im, payload.images = some imgs → im ∈ imgs →
      isValidHttpUrl im.url = false →
      ∃ es, validateProduct payload = .error es ∧
        (⟨"images", "Input is not a valid URL"⟩ : FieldError) ∈ es ∧
        post_products st newId payload = (.error (.validationError es), st)) := by
  refine ⟨?_, ?_, ?_⟩
  · intro pr hpr hneg
    obtain ⟨es, hes, hmem⟩ :=
      validateProduct_error_of_valueError (priceErr_mem_valueErrors hpr hneg)
    exact ⟨es, hes, hmem, by simp [post_products, hes]⟩
  · intro h
    obtain ⟨es, hes, hmem⟩ := validateProduct_error_of_missing_title h
    exact ⟨es, hes, hmem, by simp [post_products, hes]⟩
  · intro imgs im h1 h2 h3
    obtain ⟨es, hes, hmem⟩ :=
      validateProduct_error_of_valueError (urlErr_mem_valueErrors h1 h2 h3)
    exact ⟨es, hes, hmem, by simp [post_products, hes]⟩

/-- Witness for C8 at the scenario payload with price -1. -/
theorem invalid_product_rejected_witness :
    negPricePayload.price = some (-1) ∧ ((-1 : Rat) < 0) ∧
    ∃ es, validateProduct negPricePayload = .error es ∧
      (⟨"price", "Input should be greater than or equal to 0"⟩ : FieldError) ∈ es ∧
      post_products [] sampleOid negPricePayload =
        (.error (.validationError es), []) :=
  ⟨rfl, by decide,
    (invalid_product_rejected_not_persisted [] sampleOid negPricePayload).1
      (-1) rfl (by decide)⟩

/-- C9: POST /orders accepts an Order whose items list is empty and
whose status and payment_provider are arbitrary strings outside the
documented enumerations (no enum membership or non-emptiness check
exists), provided the remaining field predicates hold; the order is
persisted with the defaults filled. -/
theorem order_accepts_empty_items_and_free_strings (st : OrderStore)
    (n : ObjectId) (pp stat nm em ph l1 city : String) (amt : Rat)
    (ham : 0 ≤ amt) (hem : isValidEmail em = true) :
    validateOrder (orderPayloadOf pp stat nm em ph l1 city amt) =
      .ok (orderOf pp stat nm em ph l1 city amt) ∧
    (orderOf pp stat nm em ph l1 city amt).items = [] ∧
    (orderOf pp stat nm em ph l1 city amt).payment_provider = pp ∧
    (orderOf pp stat nm em ph l1 city amt).status = stat ∧
    post_orders st n (orderPayloadOf pp stat nm em ph l1 city amt) =
      (.ok ⟨oid_encode n⟩,
        st ++ [⟨n, orderOf pp stat nm em ph l1 city amt⟩]) := by
  have hval : validateOrder (orderPayloadOf pp stat nm em ph l1 city amt) =
      .ok (orderOf pp stat nm em ph l1 city amt) := by
    simp only [validateOrder, orderPayloadOf, validateCartItems]
    rw [if_neg (not_lt.mpr ham)]
    rw [hem]
    simp [orderOf]
  refine ⟨hval, rfl, rfl, rfl, ?_⟩
  simp [post_orders, hval, create_order, create_document_order]

/-- Witness for C9: provider "bitcoin" and status "mystery", outside
the documented enumerations, with an empty items list. -/
theorem order_accepts_witness :
    (0 : Rat) ≤ 5 ∧ isValidEmail "ada@example.com" = true ∧
    validateOrder (orderPayloadOf "bitcoin" "mystery" "Ada"
      "ada@example.com" "+234" "1 Road" "Lagos" 5) =
      .ok (orderOf "bitcoin" "mystery" "Ada"
        "ada@example.com" "+234" "1 Road" "Lagos" 5) ∧
    post_orders [] sampleOid (orderPayloadOf "bitcoin" "mystery" "Ada"
      "ada@example.com" "+234" "1 Road" "Lagos" 5) =
      (.ok ⟨oid_encode sampleOid⟩,
        [⟨sampleOid, orderOf "bitcoin" "mystery" "Ada"
          "ada@example.com" "+234" "1 Road" "Lagos" 5⟩]) := by
  obtain ⟨h1, -, -, -, h2⟩ := order_accepts_empty_items_and_free_strings
    [] sampleOid "bitcoin" "mystery" "Ada" "ada@example.com" "+234"
    "1 Road" "Lagos" 5 (by decide) (by decide)
  exact ⟨by decide, by decide, h1, h2⟩

end ExtensionsEssence
